import Mathlib

/-!
Verification of the request/response/error envelope of the Apollo REST façade
(`bow.py`).  The handlers unpack a JSON request, call an external backend
(`quiver`/`admix`), and wrap the result or the caught exception into a uniform
JSON envelope.  We shallowly embed:

* the value universe crossing the boundary (JSON-native scalars, numpy scalar
  kinds, `datetime` values, arbitrary foreign objects);
* the customized JSON encoder `CustomizedEncoder.default` and the two
  serialization paths (`flask.jsonify` with the app's customized encoder on
  success, plain `json.dumps` on failure);
* the five route handlers and the 404 handler, with the external
  `unpack`/`quiver`/`admix` calls abstracted as fallible parameters;
* the `Location` headers attached by the `add_response_headers` decorators.

Python dictionaries are modelled as association lists with assignment
semantics (`dset`); only key lookup matters for the properties below, so
insertion order is not tracked.  Exception messages are carried as strings;
their exact wording stands in for Python's `str(e)` and is not byte-exact
where it would quote interpreter internals.
-/

/-- Exceptions crossing the handler boundary.  `raised` stands for an
arbitrary exception thrown by external code (`unpack`, `quiver`, `admix`); the
other constructors are the concrete exception classes the interpreter raises
inside the encoder and the handlers. -/
inductive Exn where
  | attributeError (msg : String)
  | typeError (msg : String)
  | overflowError (msg : String)
  | raised (msg : String)
  deriving DecidableEq, Repr

/-- Python `str(e)`: the exception's message. -/
def exnStr : Exn → String
  | .attributeError m => m
  | .typeError m => m
  | .overflowError m => m
  | .raised m => m

/-- The numpy integer scalar kinds enumerated in the encoder's first
`isinstance` test (`np.int_, np.intc, np.intp, np.int8..np.uint64`).  None of
them subclasses Python `int`, so they all reach `default`. -/
inductive NpIntKind where
  | int_ | intc | intp | i8 | i16 | i32 | i64 | u8 | u16 | u32 | u64
  deriving DecidableEq, Repr

/-- The numpy float scalar kinds enumerated in the encoder's second
`isinstance` test.  `np.float_` is an alias of `np.float64`, which subclasses
Python `float` and is therefore serialized natively without reaching
`default`; `np.float16`/`np.float32` are not `float` subclasses. -/
inductive NpFloatKind where
  | f16 | f32 | f64
  deriving DecidableEq, Repr

/-- Scalar values that can appear in a response envelope.  Containers are
traversed identically by both serialization paths and are not modelled; the
top-level envelope dictionary is explicit (`Dict`).  Numeric payloads are
carried as `Int` — their arithmetic is never at issue, only which types
serialize.  `obj s` is any other foreign object, `s` naming its type. -/
inductive PyVal where
  | none
  | bool (b : Bool)
  | int (n : Int)
  | float (payload : Int)
  | str (s : String)
  | npInt (k : NpIntKind) (v : Int)
  | npFloat (k : NpFloatKind) (payload : Int)
  | date (y m d : Nat)
  | datetime (y mo d h mi s us : Nat)
  | timedelta (us : Int)
  | obj (tyName : String)
  deriving DecidableEq, Repr

/-- JSON-native values resulting from encoding. -/
inductive Json where
  | null
  | bool (b : Bool)
  | int (n : Int)
  | float (payload : Int)
  | str (s : String)
  deriving DecidableEq, Repr

deriving instance DecidableEq for Except

/-- A character for a decimal digit (the low digit of `n`). -/
def digitChar (n : Nat) : Char := Char.ofNat (48 + n % 10)

/-- Two-digit zero-padded decimal, as Python's `%02d` for values below 100. -/
def pad2 (n : Nat) : List Char := [digitChar (n / 10), digitChar n]

/-- Four-digit zero-padded decimal, as Python's `%04d` for values below
10000 (the year field of `date.isoformat`). -/
def pad4 (n : Nat) : List Char :=
  [digitChar (n / 1000), digitChar (n / 100), digitChar (n / 10), digitChar n]

/-- Six-digit zero-padded decimal (the microsecond field of `isoformat`). -/
def pad6 (n : Nat) : List Char :=
  [digitChar (n / 100000), digitChar (n / 10000), digitChar (n / 1000),
   digitChar (n / 100), digitChar (n / 10), digitChar n]

/-- Microseconds in one day. -/
def usPerDay : Nat := 86400000000

/-- `datetime.time(...).isoformat()` for a time-of-day given in microseconds
since midnight: `HH:MM:SS`, extended with `.ffffff` when the microsecond part
is nonzero. -/
def timeIsoformat (us : Nat) : String :=
  let sec := us / 1000000
  let frac := us % 1000000
  let hd := pad2 (sec / 3600) ++ ':' :: pad2 (sec / 60 % 60) ++ ':' :: pad2 (sec % 60)
  if frac = 0 then ⟨hd⟩ else ⟨hd ++ '.' :: pad6 frac⟩

/-- `date.isoformat()`: `YYYY-MM-DD`. -/
def dateIsoformat (y m d : Nat) : String :=
  ⟨pad4 y ++ '-' :: pad2 m ++ '-' :: pad2 d⟩

/-- `datetime.isoformat()`: the date part, `T`, then the time part. -/
def datetimeIsoformat (y mo d h mi s us : Nat) : String :=
  ⟨(pad4 y ++ '-' :: pad2 mo ++ '-' :: pad2 d) ++ 'T' ::
    (timeIsoformat (((h * 60 + mi) * 60 + s) * 1000000 + us)).data⟩

/-- `datetime.max - datetime.min` in microseconds: years 1..9999 span
3652059 days (`date.max.toordinal()`), and `datetime.max` ends at
23:59:59.999999. -/
def maxTimedeltaUs : Int := 3652059 * 86400 * 1000000 - 1

namespace CustomizedEncoder

/-- Message of the `AttributeError` raised by `obj.asscalar()`: numpy scalar
types expose `item()` but have never had an `asscalar` method (`np.asscalar`
was a module-level function), so the attribute lookup fails. -/
def asscalarMsg : String := "numpy scalar object has no attribute asscalar"

/-- Message of the `OverflowError` raised by `datetime.min + obj` when the
timedelta is negative or reaches past `datetime.max`. -/
def overflowMsg : String := "date value out of range"

/-- Message of the `TypeError` raised by line 35,
`super(self.__class__, self).default(self, obj)`: the bound method receives
two positional arguments instead of one. -/
def superArityMsg : String := "default takes 2 positional arguments but 3 were given"

/-- The body of `CustomizedEncoder.default` (bow.py lines 21-35), the hook
`json` invokes on objects its native serializer rejects.

* numpy integer kinds: `obj.item()` — a plain number;
* numpy float kinds: `obj.asscalar()` — numpy scalars have no `asscalar`
  attribute, so this raises `AttributeError` (see `asscalarMsg`);
* `datetime`/`date`: `obj.isoformat()`;
* `timedelta`: `(datetime.min + obj).time().isoformat()`, which raises
  `OverflowError` unless `0 ≤ obj ≤ datetime.max - datetime.min`, and
  otherwise keeps only the time-of-day part of the sum;
* anything else: the miscalled `super` delegation raises `TypeError`.
-/
def default : PyVal → Except Exn Json
  | .npInt _ v => .ok (.int v)
  | .npFloat _ _ => .error (.attributeError asscalarMsg)
  | .datetime y mo d h mi s us => .ok (.str (datetimeIsoformat y mo d h mi s us))
  | .date y m d => .ok (.str (dateIsoformat y m d))
  | .timedelta us =>
      if 0 ≤ us ∧ us ≤ maxTimedeltaUs then
        .ok (.str (timeIsoformat (us.toNat % usPerDay)))
      else
        .error (.overflowError overflowMsg)
  | _ => .error (.typeError superArityMsg)

end CustomizedEncoder

/-- Is the value serialized natively by `json` (no `default` call)?  Python
`None`, `bool`, `int`, `float` and `str` are; `np.float64` is, because it
subclasses Python `float`; numpy integers do not subclass `int` in Python 3
and temporal values are foreign, so they all fall through to `default`. -/
def jsonNative : PyVal → Bool
  | .none | .bool _ | .int _ | .float _ | .str _ => true
  | .npFloat .f64 _ => true
  | _ => false

/-- Native serialization of a natively-supported scalar. -/
def nativeJson : PyVal → Json
  | .bool b => .bool b
  | .int n => .int n
  | .float p => .float p
  | .str s => .str s
  | .npFloat _ p => .float p
  | _ => .null

/-- Serialization of one scalar on the success path: `flask.jsonify` under
`app.json_encoder = CustomizedEncoder` (bow.py line 38) — native types
directly, everything else through `CustomizedEncoder.default`. -/
def jsonifyVal (v : PyVal) : Except Exn Json :=
  if jsonNative v then .ok (nativeJson v) else CustomizedEncoder.default v

/-- Serialization of one scalar on the failure path: plain `json.dumps`
(bow.py lines 141, 171, 201, 234) with the standard library encoder, whose
`default` raises `TypeError` for every non-native object. -/
def dumpsVal (v : PyVal) : Except Exn Json :=
  if jsonNative v then .ok (nativeJson v)
  else .error (.typeError "Object is not JSON serializable")

/-- A Python dict, as an association list; only lookup matters. -/
abbrev Dict := List (String × PyVal)

/-- `m.get k` / `m[k]`-style lookup. -/
def dget (m : Dict) (k : String) : Option PyVal :=
  match m with
  | [] => Option.none
  | (k', v) :: rest => if k' = k then some v else dget rest k

/-- Dict assignment `m[k] = v`: replace in place if the key exists, append
otherwise (Python dicts keep the original position of an updated key). -/
def dset (m : Dict) (k : String) (v : PyVal) : Dict :=
  match m with
  | [] => [(k, v)]
  | (k', v') :: rest => if k' = k then (k, v) :: rest else (k', v') :: dset rest k v

@[simp]
theorem dget_dset_self (m : Dict) (k : String) (v : PyVal) :
    dget (dset m k v) k = some v := by
  induction m with
  | nil => simp [dget, dset]
  | cons p rest ih =>
      obtain ⟨a, b⟩ := p
      by_cases ha : a = k
      · simp [dset, dget, ha]
      · simp [dset, dget, ha, ih]

@[simp]
theorem dget_dset_ne (m : Dict) (k k' : String) (v : PyVal) (h : k' ≠ k) :
    dget (dset m k v) k' = dget m k' := by
  have hk : ¬ (k = k') := fun hh => h hh.symm
  induction m with
  | nil => simp [dget, dset, hk]
  | cons p rest ih =>
      obtain ⟨a, b⟩ := p
      by_cases ha : a = k
      · subst ha
        simp [dset, dget, hk]
      · by_cases ha' : a = k'
        · simp [dset, dget, ha, ha', h]
        · simp [dset, dget, ha, ha', ih]

/-! ## Route handlers (bow.py lines 44-235)

The external collaborators are abstracted as parameters: `unpackRes` is the
outcome of `unpack.table`/`unpack.join`/`unpack.union` on the request JSON
(a parameter mapping, or the exception it raised), and `backend` is the
keyword-argument call `quiver.get_table`/`quiver.join`/`quiver.union`/
`admix.create_table` applied to the metadata dict.  The `request.method ==
'POST'` test is always true (each route only admits POST).  Response bodies
are the metadata dicts as built by the handlers, before serialization. -/

def OK_STATUS : Int := 200

def OK_CREATE_STATUS : Int := 201

def DEF_ERROR_CODE : Int := 500

/-- A handler's result: the envelope dict and the HTTP status code
(`jsonify` responds with 200; explicit `Response(..., status=...)` uses the
given status). -/
structure HResp where
  body : Dict
  http : Int
  deriving DecidableEq, Repr

namespace Bow

/-- The shared `except Exception` block: on exception `e` with the metadata
accumulated so far, set `status = DEF_ERROR_CODE` and `error_message =
str(e)` and respond with that status. -/
def errorResp (m : Dict) (e : Exn) : HResp :=
  let m1 := dset m "status" (.int DEF_ERROR_CODE)
  let m2 := dset m1 "error_message" (.str (exnStr e))
  ⟨m2, DEF_ERROR_CODE⟩

/-- `POST /get-table` (bow.py lines 114-142). -/
def get_table (unpackRes : Except Exn Dict) (backend : Dict → Except Exn PyVal) : HResp :=
  match unpackRes with
  | .error e => errorResp [] e
  | .ok params =>
      match backend params with
      | .error e => errorResp params e
      | .ok data =>
          let m := dset params "data" data
          let m := dset m "success" (.bool true)
          let m := dset m "status" (.int OK_STATUS)
          ⟨m, 200⟩

/-- `POST /join` (bow.py lines 145-172).  Note `metadata['format'] = 'dict'`
is set before the backend call, so `quiver.join` receives it too. -/
def join (unpackRes : Except Exn Dict) (backend : Dict → Except Exn PyVal) : HResp :=
  match unpackRes with
  | .error e => errorResp [] e
  | .ok params =>
      let pf := dset params "format" (.str "dict")
      match backend pf with
      | .error e => errorResp pf e
      | .ok data =>
          let m := dset pf "data" data
          let m := dset m "status" (.int OK_STATUS)
          let m := dset m "success" (.bool true)
          ⟨m, 200⟩

/-- `POST /union` (bow.py lines 175-202). -/
def union (unpackRes : Except Exn Dict) (backend : Dict → Except Exn PyVal) : HResp :=
  match unpackRes with
  | .error e => errorResp [] e
  | .ok params =>
      let pf := dset params "format" (.str "dict")
      match backend pf with
      | .error e => errorResp pf e
      | .ok data =>
          let m := dset pf "data" data
          let m := dset m "success" (.bool true)
          let m := dset m "status" (.int OK_STATUS)
          ⟨m, 200⟩

/-- Message of the `AttributeError` raised by `request_json.get(...)` when
`request.get_json()` returned `None` (body was the JSON literal `null`). -/
def noneGetMsg : String := "NoneType object has no attribute get"

/-- The inline unpacking of `create_table`: `request_json.get(key, None)`
for the three expected keys. -/
def createParams (j : Dict) : Dict :=
  let m := dset [] "keyspace" ((dget j "keyspace").getD .none)
  let m := dset m "tablename" ((dget j "tablename").getD .none)
  dset m "columns" ((dget j "columns").getD .none)

/-- `POST /create-table` (bow.py lines 205-235).  `requestJson` is the parsed
body (`none` when `get_json` yielded Python `None`); unpacking is inline
`.get` calls with `None` defaults, the success status is
`OK_CREATE_STATUS = 201` and the success response is an explicit
`Response(..., status=metadata['status'])`. -/
def create_table (requestJson : Option Dict) (backend : Dict → Except Exn PyVal) : HResp :=
  match requestJson with
  | Option.none => errorResp [] (.attributeError noneGetMsg)
  | some j =>
      let m := createParams j
      match backend m with
      | .error e => errorResp m e
      | .ok data =>
          let m := dset m "data" data
          let m := dset m "success" (.bool true)
          let m := dset m "status" (.int OK_CREATE_STATUS)
          ⟨m, 201⟩

/-- `VERSION = 1.0`, a Python float. -/
def VERSION : PyVal := .float 1

/-- The static body of `GET /version` (bow.py lines 70-79). -/
def version_body : Dict :=
  [("status", .int OK_STATUS),
   ("api_name", .str "Apollo"),
   ("version", VERSION),
   ("license", .str "Apache 2.0")]

/-- The static body of `GET /about` (bow.py lines 82-96). -/
def about_body : Dict :=
  [("api_name", .str "Apollo"),
   ("version", VERSION),
   ("author_name", .str "Juan A. Aguilar-Jiménez"),
   ("author_email", .str "juanantonioaguilar@gmail.com"),
   ("project_repository", .str "https://github.com/jasset75/apollo.github"),
   ("documentation", .str "http://jasset75.github.io/apollo"),
   ("license", .str "Apache 2.0")]

/-- A redirect response: `flask.redirect` defaults to HTTP 302 and targets
the given location. -/
structure Redirect where
  location : String
  http : Int
  deriving DecidableEq, Repr

/-- `GET /` (bow.py lines 63-67): `redirect(url_for("about"))`, and
`url_for("about")` is the `/about` route's path. -/
def root : Redirect := ⟨"/about", 302⟩

/-- The 404 handler (bow.py lines 99-111): `e` is the error object, unused
beyond triggering the handler. -/
def page_not_found (_e : PyVal) : Dict :=
  [("status", .int 404),
   ("error_message", .str "Apollo API endpoint not found."),
   ("api_name", .str "Apollo"),
   ("version", VERSION),
   ("author", .str "juanantonioaguilar@gmail.com"),
   ("license", .str "Apache 2.0")]

/-- The `add_response_headers(dict(Location=...))` decorations, one per
route (bow.py lines 63-64, 70-71, 82-83, 114-115, 145-146, 175-176,
205-206): request path paired with the `Location` header value the decorator
writes into the response. -/
def routeLocations : List (String × String) :=
  [("/", "/about"),
   ("/version", "/version"),
   ("/about", "/about"),
   ("/get-table", "/get-table"),
   ("/join", "/join"),
   ("/union", "/union"),
   ("/create-table", "/create-table")]

/-- The headers the 404 handler adds: it has no `add_response_headers`
decorator, so none. -/
def pageNotFoundHeaders : List (String × String) := []

end Bow

/-! ## ISO-8601 shape of the encoder's temporal output -/

/-- Does the string have the shape of an ISO-8601 time of day,
`HH:MM:SS` or `HH:MM:SS.ffffff`? -/
def isIsoTime (s : String) : Bool :=
  match s.data with
  | [h1, h2, c1, m1, m2, c2, s1, s2] =>
      h1.isDigit && h2.isDigit && (c1 == ':') && m1.isDigit && m2.isDigit &&
      (c2 == ':') && s1.isDigit && s2.isDigit
  | [h1, h2, c1, m1, m2, c2, s1, s2, p, f1, f2, f3, f4, f5, f6] =>
      h1.isDigit && h2.isDigit && (c1 == ':') && m1.isDigit && m2.isDigit &&
      (c2 == ':') && s1.isDigit && s2.isDigit && (p == '.') &&
      f1.isDigit && f2.isDigit && f3.isDigit && f4.isDigit && f5.isDigit &&
      f6.isDigit
  | _ => false

/-- Does the string have the shape of an ISO-8601 date, `YYYY-MM-DD`? -/
def isIsoDate (s : String) : Bool :=
  match s.data with
  | [y1, y2, y3, y4, c1, m1, m2, c2, d1, d2] =>
      y1.isDigit && y2.isDigit && y3.isDigit && y4.isDigit && (c1 == '-') &&
      m1.isDigit && m2.isDigit && (c2 == '-') && d1.isDigit && d2.isDigit
  | _ => false

/-- Does the string have the shape of an ISO-8601 datetime: a date, `T`,
then a time of day (with or without fractional seconds)? -/
def isIsoDatetime (s : String) : Bool :=
  match s.data with
  | [y1, y2, y3, y4, c1, mo1, mo2, c2, d1, d2, t,
     h1, h2, c3, m1, m2, c4, s1, s2] =>
      y1.isDigit && y2.isDigit && y3.isDigit && y4.isDigit && (c1 == '-') &&
      mo1.isDigit && mo2.isDigit && (c2 == '-') && d1.isDigit && d2.isDigit &&
      (t == 'T') &&
      h1.isDigit && h2.isDigit && (c3 == ':') && m1.isDigit && m2.isDigit &&
      (c4 == ':') && s1.isDigit && s2.isDigit
  | [y1, y2, y3, y4, c1, mo1, mo2, c2, d1, d2, t,
     h1, h2, c3, m1, m2, c4, s1, s2, p, f1, f2, f3, f4, f5, f6] =>
      y1.isDigit && y2.isDigit && y3.isDigit && y4.isDigit && (c1 == '-') &&
      mo1.isDigit && mo2.isDigit && (c2 == '-') && d1.isDigit && d2.isDigit &&
      (t == 'T') &&
      h1.isDigit && h2.isDigit && (c3 == ':') && m1.isDigit && m2.isDigit &&
      (c4 == ':') && s1.isDigit && s2.isDigit && (p == '.') &&
      f1.isDigit && f2.isDigit && f3.isDigit && f4.isDigit && f5.isDigit &&
      f6.isDigit
  | _ => false

theorem digitChar_isDigit (n : Nat) : (digitChar n).isDigit = true := by
  have h : n % 10 < 10 := Nat.mod_lt _ (by norm_num)
  unfold digitChar
  set k := n % 10 with hk
  interval_cases k <;> decide

theorem isIsoTime_timeIsoformat (us : Nat) : isIsoTime (timeIsoformat us) = true := by
  unfold timeIsoformat
  by_cases h : us % 1000000 = 0 <;>
    simp [h, isIsoTime, pad2, pad6, digitChar_isDigit]

theorem isIsoDate_dateIsoformat (y m d : Nat) :
    isIsoDate (dateIsoformat y m d) = true := by
  simp [dateIsoformat, isIsoDate, pad4, pad2, digitChar_isDigit]

theorem isIsoDatetime_datetimeIsoformat (y mo d h mi s us : Nat) :
    isIsoDatetime (datetimeIsoformat y mo d h mi s us) = true := by
  unfold datetimeIsoformat timeIsoformat
  by_cases h0 : (((h * 60 + mi) * 60 + s) * 1000000 + us) % 1000000 = 0 <;>
    simp [h0, isIsoDatetime, pad4, pad2, pad6, digitChar_isDigit]

/-! ## Claim-level predicates -/

/-- A 500 error envelope for exception `e`: body `status` is 500, body
`error_message` is `str(e)`, and the HTTP status is 500. -/
def is500Envelope (r : HResp) (e : Exn) : Prop :=
  dget r.body "status" = some (.int 500) ∧
  dget r.body "error_message" = some (.str (exnStr e)) ∧
  r.http = 500

/-- The parameter mapping produced by `unpack` uses operation-specific field
names, not the envelope's reserved keys. -/
def reservedFree (p : Dict) : Prop :=
  dget p "data" = Option.none ∧ dget p "success" = Option.none ∧
  dget p "error_message" = Option.none

/-- The envelope invariant: a `status` key is present, and either the
success shape (`success = true`, a `data` key, no `error_message`) or the
error shape (an `error_message`, no `data` key, no `success` key) holds.
The two shapes are mutually exclusive, so exactly one is populated. -/
def envelopeOk (r : HResp) : Prop :=
  (dget r.body "status").isSome = true ∧
  ((dget r.body "success" = some (.bool true) ∧
    (dget r.body "data").isSome = true ∧
    dget r.body "error_message" = Option.none) ∨
   ((dget r.body "error_message").isSome = true ∧
    dget r.body "data" = Option.none ∧
    dget r.body "success" = Option.none))

/-- C1: for every POST handler, an exception raised during request unpacking
or during the external backend call is caught uniformly (whatever the
exception), and the handler responds with body `status = 500`,
`error_message = str(e)`, and HTTP status 500. -/
theorem c1_any_exception_maps_to_500 (u : Except Exn Dict)
    (b : Dict → Except Exn PyVal) (rj : Option Dict) (e : Exn) :
    ((u = .error e ∨ ∃ p, u = .ok p ∧ b p = .error e) →
       is500Envelope (Bow.get_table u b) e)
  ∧ ((u = .error e ∨ ∃ p, u = .ok p ∧ b (dset p "format" (.str "dict")) = .error e) →
       is500Envelope (Bow.join u b) e)
  ∧ ((u = .error e ∨ ∃ p, u = .ok p ∧ b (dset p "format" (.str "dict")) = .error e) →
       is500Envelope (Bow.union u b) e)
  ∧ (rj = Option.none →
       is500Envelope (Bow.create_table rj b) (.attributeError Bow.noneGetMsg))
  ∧ (∀ j, rj = some j → b (Bow.createParams j) = .error e →
       is500Envelope (Bow.create_table rj b) e) := by
  refine ⟨?_, ?_, ?_, ?_, ?_⟩
  · rintro (rfl | ⟨p, rfl, hb⟩)
    · simp [Bow.get_table, Bow.errorResp, is500Envelope, DEF_ERROR_CODE]
    · simp [Bow.get_table, Bow.errorResp, is500Envelope, DEF_ERROR_CODE, hb]
  · rintro (rfl | ⟨p, rfl, hb⟩)
    · simp [Bow.join, Bow.errorResp, is500Envelope, DEF_ERROR_CODE]
    · simp [Bow.join, Bow.errorResp, is500Envelope, DEF_ERROR_CODE, hb]
  · rintro (rfl | ⟨p, rfl, hb⟩)
    · simp [Bow.union, Bow.errorResp, is500Envelope, DEF_ERROR_CODE]
    · simp [Bow.union, Bow.errorResp, is500Envelope, DEF_ERROR_CODE, hb]
  · rintro rfl
    simp [Bow.create_table, Bow.errorResp, is500Envelope, DEF_ERROR_CODE]
  · rintro j rfl hb
    simp [Bow.create_table, Bow.errorResp, is500Envelope, DEF_ERROR_CODE, hb]

/-- Witness for C1 at concrete inputs: a failing unpack for `/get-table`,
`/join`, `/union`, a `None` request body for `/create-table`, and a failing
backend call for `/create-table`. -/
theorem c1_any_exception_maps_to_500_witness :
    is500Envelope (Bow.get_table (.error (.raised "boom")) (fun _ => .ok .none))
      (.raised "boom")
  ∧ is500Envelope (Bow.join (.error (.raised "boom")) (fun _ => .ok .none))
      (.raised "boom")
  ∧ is500Envelope (Bow.union (.error (.raised "boom")) (fun _ => .ok .none))
      (.raised "boom")
  ∧ is500Envelope (Bow.create_table Option.none (fun _ => .ok .none))
      (.attributeError Bow.noneGetMsg)
  ∧ is500Envelope (Bow.create_table (some []) (fun _ => .error (.raised "spark down")))
      (.raised "spark down") := by
  have h1 := c1_any_exception_maps_to_500 (.error (.raised "boom"))
    (fun _ => .ok PyVal.none) Option.none (.raised "boom")
  have h2 := c1_any_exception_maps_to_500 (.ok [])
    (fun _ => .error (.raised "spark down")) (some []) (.raised "spark down")
  exact ⟨h1.1 (Or.inl rfl), h1.2.1 (Or.inl rfl), h1.2.2.1 (Or.inl rfl),
         h1.2.2.2.1 rfl, h2.2.2.2.2 [] rfl rfl⟩

/-- C3: every response body of the four POST endpoints satisfies the
envelope invariant — a `status` key is always present, a success body has
`success = true`, a `data` key and no `error_message`, and an error body has
an `error_message`, no `data` key and no `success` key; the two shapes are
mutually exclusive.  The hypothesis says the `unpack` parameter mappings use
operation-specific field names, not the envelope's reserved keys. -/
theorem c3_envelope_invariant (u : Except Exn Dict)
    (b : Dict → Except Exn PyVal) (rj : Option Dict)
    (hu : ∀ p, u = .ok p → reservedFree p) :
    envelopeOk (Bow.get_table u b)
  ∧ envelopeOk (Bow.join u b)
  ∧ envelopeOk (Bow.union u b)
  ∧ envelopeOk (Bow.create_table rj b) := by
  refine ⟨?_, ?_, ?_, ?_⟩
  · cases u with
    | error e =>
        simp [Bow.get_table, Bow.errorResp, envelopeOk, dget]
    | ok p =>
        obtain ⟨hd, hs, he⟩ := hu p rfl
        cases hb : b p with
        | error e =>
            simp [Bow.get_table, Bow.errorResp, envelopeOk, hb, hd, hs]
        | ok data =>
            simp [Bow.get_table, envelopeOk, hb, he]
  · cases u with
    | error e =>
        simp [Bow.join, Bow.errorResp, envelopeOk, dget]
    | ok p =>
        obtain ⟨hd, hs, he⟩ := hu p rfl
        cases hb : b (dset p "format" (.str "dict")) with
        | error e =>
            simp [Bow.join, Bow.errorResp, envelopeOk, hb, hd, hs]
        | ok data =>
            simp [Bow.join, envelopeOk, hb, he]
  · cases u with
    | error e =>
        simp [Bow.union, Bow.errorResp, envelopeOk, dget]
    | ok p =>
        obtain ⟨hd, hs, he⟩ := hu p rfl
        cases hb : b (dset p "format" (.str "dict")) with
        | error e =>
            simp [Bow.union, Bow.errorResp, envelopeOk, hb, hd, hs]
        | ok data =>
            simp [Bow.union, envelopeOk, hb, he]
  · cases rj with
    | none =>
        simp [Bow.create_table, Bow.errorResp, envelopeOk, dget]
    | some j =>
        have hcp : reservedFree (Bow.createParams j) := by
          simp [Bow.createParams, reservedFree, dget]
        obtain ⟨hd, hs, he⟩ := hcp
        cases hb : b (Bow.createParams j) with
        | error e =>
            simp [Bow.create_table, Bow.errorResp, envelopeOk, hb, hd, hs]
        | ok data =>
            simp [Bow.create_table, envelopeOk, hb, he]

/-- Witness for C3: the invariant at a concrete success (`/get-table` with a
one-key parameter mapping and a backend result) and at a concrete failure
(`/create-table` on a `None` body). -/
theorem c3_envelope_invariant_witness :
    envelopeOk (Bow.get_table (.ok [("tablename", .str "t1")])
      (fun _ => .ok (.npInt .i64 42)))
  ∧ envelopeOk (Bow.create_table Option.none (fun _ => .error (.raised "down"))) := by
  have h1 := c3_envelope_invariant (.ok [("tablename", .str "t1")])
    (fun _ => .ok (.npInt .i64 42)) Option.none
    (by rintro p ⟨rfl⟩; exact ⟨rfl, rfl, rfl⟩)
  have h2 := c3_envelope_invariant (.error (.raised "x"))
    (fun _ => .error (.raised "down")) Option.none (by rintro p ⟨⟩)
  exact ⟨h1.1, h2.2.2.2⟩

/-- C9: on a successful backend call, `/create-table` responds with body
`status = 201` and HTTP status 201, while `/get-table`, `/join` and `/union`
respond with body `status = 200` and HTTP status 200. -/
theorem c9_success_status_codes (p j : Dict) (b : Dict → Except Exn PyVal)
    (d : PyVal) :
    (b p = .ok d →
       dget (Bow.get_table (.ok p) b).body "status" = some (.int 200)
       ∧ (Bow.get_table (.ok p) b).http = 200)
  ∧ (b (dset p "format" (.str "dict")) = .ok d →
       (dget (Bow.join (.ok p) b).body "status" = some (.int 200)
        ∧ (Bow.join (.ok p) b).http = 200)
       ∧ (dget (Bow.union (.ok p) b).body "status" = some (.int 200)
          ∧ (Bow.union (.ok p) b).http = 200))
  ∧ (b (Bow.createParams j) = .ok d →
       dget (Bow.create_table (some j) b).body "status" = some (.int 201)
       ∧ (Bow.create_table (some j) b).http = 201) := by
  refine ⟨?_, ?_, ?_⟩
  · intro hb
    simp [Bow.get_table, hb, OK_STATUS]
  · intro hb
    exact ⟨by simp [Bow.join, hb, OK_STATUS], by simp [Bow.union, hb, OK_STATUS]⟩
  · intro hb
    simp [Bow.create_table, hb, OK_CREATE_STATUS]

/-- Witness for C9 at a concrete parameter mapping, request body and
backend result. -/
theorem c9_success_status_codes_witness :
    (dget (Bow.get_table (.ok [("tablename", .str "t1")]) (fun _ => .ok .none)).body
       "status" = some (.int 200))
  ∧ (Bow.join (.ok [("tablename", .str "t1")]) (fun _ => .ok .none)).http = 200
  ∧ (dget (Bow.create_table (some [("keyspace", .str "ks")]) (fun _ => .ok .none)).body
       "status" = some (.int 201))
  ∧ (Bow.create_table (some [("keyspace", .str "ks")]) (fun _ => .ok .none)).http = 201 := by
  have h := c9_success_status_codes [("tablename", .str "t1")] [("keyspace", .str "ks")]
    (fun _ => .ok PyVal.none) PyVal.none
  exact ⟨(h.1 rfl).1, ((h.2.1 rfl).1).2, (h.2.2 rfl).1, (h.2.2 rfl).2⟩

/-- C10: success bodies carry the whole unpacked parameter mapping (with a
`format = 'dict'` key for `/join` and `/union`, and the three `.get`-unpacked
keys for `/create-table`) alongside `status`/`success`/`data`, and a failure
body raised by the backend call still carries the parameters unpacked before
the exception.  `k` ranges over the parameter names, which are distinct from
the envelope keys the handler assigns afterwards. -/
theorem c10_params_echoed (p j : Dict) (b : Dict → Except Exn PyVal)
    (d : PyVal) (e : Exn) (k : String) :
    (b p = .ok d → k ≠ "data" → k ≠ "success" → k ≠ "status" →
       dget (Bow.get_table (.ok p) b).body k = dget p k)
  ∧ (b (dset p "format" (.str "dict")) = .ok d →
       dget (Bow.join (.ok p) b).body "format" = some (.str "dict")
       ∧ (k ≠ "data" → k ≠ "success" → k ≠ "status" → k ≠ "format" →
            dget (Bow.join (.ok p) b).body k = dget p k))
  ∧ (b (dset p "format" (.str "dict")) = .ok d →
       dget (Bow.union (.ok p) b).body "format" = some (.str "dict")
       ∧ (k ≠ "data" → k ≠ "success" → k ≠ "status" → k ≠ "format" →
            dget (Bow.union (.ok p) b).body k = dget p k))
  ∧ (b (Bow.createParams j) = .ok d →
       dget (Bow.create_table (some j) b).body "keyspace"
         = some ((dget j "keyspace").getD .none)
       ∧ dget (Bow.create_table (some j) b).body "tablename"
         = some ((dget j "tablename").getD .none)
       ∧ dget (Bow.create_table (some j) b).body "columns"
         = some ((dget j "columns").getD .none))
  ∧ (b p = .error e → k ≠ "status" → k ≠ "error_message" →
       dget (Bow.get_table (.ok p) b).body k = dget p k)
  ∧ (b (dset p "format" (.str "dict")) = .error e →
       dget (Bow.join (.ok p) b).body "format" = some (.str "dict")
       ∧ (k ≠ "status" → k ≠ "error_message" → k ≠ "format" →
            dget (Bow.join (.ok p) b).body k = dget p k))
  ∧ (b (dset p "format" (.str "dict")) = .error e →
       dget (Bow.union (.ok p) b).body "format" = some (.str "dict")
       ∧ (k ≠ "status" → k ≠ "error_message" → k ≠ "format" →
            dget (Bow.union (.ok p) b).body k = dget p k))
  ∧ (b (Bow.createParams j) = .error e →
       dget (Bow.create_table (some j) b).body "keyspace"
         = some ((dget j "keyspace").getD .none)
       ∧ dget (Bow.create_table (some j) b).body "tablename"
         = some ((dget j "tablename").getD .none)
       ∧ dget (Bow.create_table (some j) b).body "columns"
         = some ((dget j "columns").getD .none)) := by
  refine ⟨?_, ?_, ?_, ?_, ?_, ?_, ?_, ?_⟩
  · intro hb h1 h2 h3
    simp [Bow.get_table, hb, h1, h2, h3]
  · intro hb
    refine ⟨by simp [Bow.join, hb], ?_⟩
    intro h1 h2 h3 h4
    simp [Bow.join, hb, h1, h2, h3, h4]
  · intro hb
    refine ⟨by simp [Bow.union, hb], ?_⟩
    intro h1 h2 h3 h4
    simp [Bow.union, hb, h1, h2, h3, h4]
  · intro hb
    refine ⟨?_, ?_, ?_⟩ <;>
    · simp only [Bow.create_table, hb]
      simp [Bow.createParams, dget]
  · intro hb h1 h2
    simp [Bow.get_table, Bow.errorResp, hb, h1, h2]
  · intro hb
    refine ⟨by simp [Bow.join, Bow.errorResp, hb], ?_⟩
    intro h1 h2 h3
    simp [Bow.join, Bow.errorResp, hb, h1, h2, h3]
  · intro hb
    refine ⟨by simp [Bow.union, Bow.errorResp, hb], ?_⟩
    intro h1 h2 h3
    simp [Bow.union, Bow.errorResp, hb, h1, h2, h3]
  · intro hb
    refine ⟨?_, ?_, ?_⟩ <;>
    · simp only [Bow.create_table, hb]
      simp [Bow.errorResp, Bow.createParams, dget]

/-- Witness for C10 at a concrete parameter mapping (`left_table`),
request body (`keyspace`) and both backend outcomes. -/
theorem c10_params_echoed_witness :
    dget (Bow.get_table (.ok [("left_table", .str "t1")]) (fun _ => .ok .none)).body
      "left_table" = some (.str "t1")
  ∧ dget (Bow.join (.ok [("left_table", .str "t1")]) (fun _ => .ok .none)).body
      "format" = some (.str "dict")
  ∧ dget (Bow.create_table (some [("keyspace", .str "ks")]) (fun _ => .ok .none)).body
      "keyspace" = some (.str "ks")
  ∧ dget (Bow.get_table (.ok [("left_table", .str "t1")])
      (fun _ => .error (.raised "down"))).body "left_table" = some (.str "t1")
  ∧ dget (Bow.join (.ok [("left_table", .str "t1")])
      (fun _ => .error (.raised "down"))).body "left_table" = some (.str "t1")
  ∧ dget (Bow.union (.ok [("left_table", .str "t1")])
      (fun _ => .error (.raised "down"))).body "left_table" = some (.str "t1")
  ∧ dget (Bow.create_table (some [("keyspace", .str "ks")])
      (fun _ => .error (.raised "down"))).body "keyspace" = some (.str "ks") := by
  have hok := c10_params_echoed [("left_table", .str "t1")] [("keyspace", .str "ks")]
    (fun _ => .ok PyVal.none) PyVal.none (.raised "down") "left_table"
  have herr := c10_params_echoed [("left_table", .str "t1")] [("keyspace", .str "ks")]
    (fun _ => .error (.raised "down")) PyVal.none (.raised "down") "left_table"
  refine ⟨?_, ?_, ?_, ?_, ?_, ?_, ?_⟩
  · have h := hok.1 rfl (by decide) (by decide) (by decide)
    rw [h]; decide
  · exact (hok.2.1 rfl).1
  · have h := (hok.2.2.2.1 rfl).1
    rw [h]; decide
  · have h := herr.2.2.2.2.1 rfl (by decide) (by decide)
    rw [h]; decide
  · have h := (herr.2.2.2.2.2.1 rfl).2 (by decide) (by decide) (by decide)
    rw [h]; decide
  · have h := (herr.2.2.2.2.2.2.1 rfl).2 (by decide) (by decide) (by decide)
    rw [h]; decide
  · have h := (herr.2.2.2.2.2.2.2 rfl).1
    rw [h]; decide

/-- C2: evaluation of the encoder at the claim's failing inputs.  The claim
says every numpy float kind is serialized to a plain JSON number and the
encoder never raises on backend values; the code's float branch calls
`obj.asscalar()`, a method numpy scalars do not have, so encoding an
`np.float32` or `np.float16` value raises `AttributeError` (only `np.float64`
survives, through its native `float`-subclass path, never reaching the
branch).  Integer kinds do serialize as claimed. -/
theorem c2_float_branch_raises :
    jsonifyVal (.npFloat .f32 3) = .error (.attributeError CustomizedEncoder.asscalarMsg)
  ∧ jsonifyVal (.npFloat .f16 3) = .error (.attributeError CustomizedEncoder.asscalarMsg)
  ∧ CustomizedEncoder.default (.npFloat .f32 3)
      = .error (.attributeError CustomizedEncoder.asscalarMsg)
  ∧ jsonifyVal (.npFloat .f64 3) = .ok (.float 3)
  ∧ jsonifyVal (.npInt .i64 7) = .ok (.int 7) := by
  decide

/-- C4 counterexample: the two serialization paths are not the same encoder.
A backend-produced `date` value serializes to an ISO string on the success
path (`jsonify` with the app's `CustomizedEncoder`) but raises `TypeError` on
the failure path (plain `json.dumps`), so the claim's "serializes identically
on both paths" is false at this value. -/
theorem c4_counterexample :
    dumpsVal (.date 2020 1 1) ≠ jsonifyVal (.date 2020 1 1)
  ∧ dumpsVal (.date 2020 1 1)
      = .error (.typeError "Object is not JSON serializable")
  ∧ jsonifyVal (.date 2020 1 1) = .ok (.str "2020-01-01") := by
  decide

/-- C4 amended: the failure path uses the standard-library encoder, not the
app's customized one; the two paths agree exactly on JSON-native values
(`None`, booleans, ints, floats — including `np.float64`, a `float`
subclass — and strings), while every other backend value that the success
path can encode raises `TypeError` on the failure path. -/
theorem c4_amended_encoders_agree_only_on_native (v : PyVal)
    (h : jsonNative v = true) :
    dumpsVal v = jsonifyVal v := by
  simp [dumpsVal, jsonifyVal, h]

/-- Witness for C4 amended: both paths serialize the string value alike. -/
theorem c4_amended_encoders_agree_only_on_native_witness :
    jsonNative (.str "t1") = true
  ∧ dumpsVal (.str "t1") = jsonifyVal (.str "t1") :=
  ⟨by decide, c4_amended_encoders_agree_only_on_native (.str "t1") (by decide)⟩

/-- C8 counterexample: a negative duration makes the encoder raise instead of
producing an ISO-8601 string — `datetime.min + timedelta(days=-1)` is below
`datetime.min`, an `OverflowError` — so the claim's "every duration value"
is false at `timedelta(days=-1)`. -/
theorem c8_counterexample :
    jsonifyVal (.timedelta (-86400000000))
      = .error (.overflowError CustomizedEncoder.overflowMsg) := by
  decide

/-- C8 amended: for every duration between zero and
`datetime.max - datetime.min` the encoder produces an ISO-8601 time-of-day
string (the time part of `datetime.min + duration`, so whole days are
dropped); durations outside that range raise `OverflowError`.  Every date and
datetime value (fields in `datetime`'s valid ranges) produces the
corresponding ISO-8601 date/datetime string. -/
theorem c8_amended_temporal_iso_strings (td : Int) (y mo d h mi s us : Nat)
    (htd0 : 0 ≤ td) (htd1 : td ≤ maxTimedeltaUs)
    (_hy0 : 1 ≤ y) (_hy : y ≤ 9999) (_hmo0 : 1 ≤ mo) (_hmo : mo ≤ 12)
    (_hd0 : 1 ≤ d) (_hd : d ≤ 31) (_hh : h ≤ 23) (_hmi : mi ≤ 59)
    (_hs : s ≤ 59) (_hus : us ≤ 999999) :
    (∃ t, jsonifyVal (.timedelta td) = .ok (.str t) ∧ isIsoTime t = true)
  ∧ (∃ t, jsonifyVal (.date y mo d) = .ok (.str t) ∧ isIsoDate t = true)
  ∧ (∃ t, jsonifyVal (.datetime y mo d h mi s us) = .ok (.str t)
        ∧ isIsoDatetime t = true) := by
  refine ⟨⟨timeIsoformat (td.toNat % usPerDay), ?_, isIsoTime_timeIsoformat _⟩,
          ⟨dateIsoformat y mo d, ?_, isIsoDate_dateIsoformat y mo d⟩,
          ⟨datetimeIsoformat y mo d h mi s us, ?_,
            isIsoDatetime_datetimeIsoformat y mo d h mi s us⟩⟩
  · simp [jsonifyVal, jsonNative, CustomizedEncoder.default, htd0, htd1]
  · simp [jsonifyVal, jsonNative, CustomizedEncoder.default]
  · simp [jsonifyVal, jsonNative, CustomizedEncoder.default]

/-- Witness for C8 amended: a one-hour duration and the date/datetime
2020-02-29 12:34:56.000007. -/
theorem c8_amended_temporal_iso_strings_witness :
    (∃ t, jsonifyVal (.timedelta 3600000000) = .ok (.str t) ∧ isIsoTime t = true)
  ∧ (∃ t, jsonifyVal (.date 2020 2 29) = .ok (.str t) ∧ isIsoDate t = true)
  ∧ (∃ t, jsonifyVal (.datetime 2020 2 29 12 34 56 7) = .ok (.str t)
        ∧ isIsoDatetime t = true) :=
  c8_amended_temporal_iso_strings 3600000000 2020 2 29 12 34 56 7
    (by decide) (by decide) (by decide) (by decide) (by decide) (by decide)
    (by decide) (by decide) (by decide) (by decide) (by decide) (by decide)

/-- C5 counterexample: the `/` route's decorator attaches `Location =
"/about"`, not the request path `/`, so "Location equals the literal request
path for every route" is false at `/`. -/
theorem c5_counterexample :
    Bow.routeLocations.lookup "/" = some "/about" ∧ ("/about" : String) ≠ "/" := by
  decide

/-- C5 amended: every registered route attaches a fixed `Location` header,
equal to that route's path for all routes except `/`, whose header is the
redirect target `/about`; the 404 handler has no header decorator, so
responses for unknown paths carry no handler-set `Location` at all. -/
theorem c5_amended_location_headers :
    (Bow.routeLocations.all fun pr => pr.1 == "/" || pr.2 == pr.1) = true
  ∧ Bow.routeLocations.lookup "/" = some "/about"
  ∧ Bow.pageNotFoundHeaders.lookup "Location" = Option.none := by
  decide

/-- C6: `GET /` responds with a 302 redirect to `/about`, and the static
`/about` and `/version` bodies carry the literal fields
`api_name = 'Apollo'` and `license = 'Apache 2.0'`. -/
theorem c6_root_redirect_and_static_metadata :
    Bow.root.location = "/about" ∧ Bow.root.http = 302
  ∧ dget Bow.about_body "api_name" = some (.str "Apollo")
  ∧ dget Bow.about_body "license" = some (.str "Apache 2.0")
  ∧ dget Bow.version_body "api_name" = some (.str "Apollo")
  ∧ dget Bow.version_body "license" = some (.str "Apache 2.0") := by
  decide

/-- C7: the 404 body is one fixed JSON object — the same whatever error
object (and hence whatever request path) triggered the handler — with
`status = 404`, `api_name = 'Apollo'` and the license named. -/
theorem c7_not_found_fixed_body (e1 e2 : PyVal) :
    Bow.page_not_found e1 = Bow.page_not_found e2
  ∧ dget (Bow.page_not_found e1) "status" = some (.int 404)
  ∧ dget (Bow.page_not_found e1) "api_name" = some (.str "Apollo")
  ∧ dget (Bow.page_not_found e1) "license" = some (.str "Apache 2.0") := by
  exact ⟨rfl, rfl, rfl, rfl⟩
